import Mathlib

/-!
Verification of the openclaw-model-selector plugin (session-scoped model
routing). The repository contains several revisions of the same plugin; each
is embedded under its own namespace:

* `V6`      — the Beads-integration revision (`src/unnamed/part_003`):
              five-category keyword classifier and the on-disk escalation
              ledger (`addEscalation` / `removeEscalation`).
* `Collab`  — the collaboration revision (`src/unnamed/part_001`):
              `isRateLimitError`, the rate-limit fallback cascade of its
              `after_tool_call` hook, and `getComplementModel`.
* `V3`      — the approval-flow revision at the top of `src/index.ts`:
              four-category classifier, suggest/approve/override state
              machine, Todoist completion hook.
* `V4A`     — the auto-switch revision (`src/unnamed/part_002`):
              five-category classifier (with `audit`), unconditional
              auto-switch on classification, armed return-to-default.

JavaScript strings are modeled as Lean `String`; `text.toLowerCase()`,
`text.trim()`, `hay.includes(pat)` and `Array.prototype.indexOf` are given
explicit executable definitions below (the sources only ever feed ASCII
signal tables into them).
-/

/-- JS `String.prototype.toLowerCase`, character by character (the signal
tables in the sources are ASCII, where `Char.toLower` agrees with JS). -/
def lowerStr (s : String) : String :=
  String.mk (s.data.map Char.toLower)

/-- Whether `pat` is a prefix of `hay` (character lists). -/
def isPrefixCh : List Char → List Char → Bool
  | [], _ => true
  | _ :: _, [] => false
  | a :: as, b :: bs => a == b && isPrefixCh as bs

/-- Whether `pat` occurs as a contiguous substring of `hay` (character lists). -/
def containsCh (pat : List Char) : List Char → Bool
  | [] => pat.isEmpty
  | c :: rest => isPrefixCh pat (c :: rest) || containsCh pat rest

/-- JS `hay.includes(pat)`. -/
def containsStr (hay pat : String) : Bool :=
  containsCh pat.data hay.data

/-- JS `SIGNALS.some((s) => t.includes(s))`. -/
def matchesAny (t : String) (signals : List String) : Bool :=
  signals.any (fun s => containsStr t s)

/-- ASCII whitespace used by JS `trim` on the texts involved. -/
def isWsChar (c : Char) : Bool :=
  c == ' ' || c == '\t' || c == '\n' || c == '\r'

/-- JS `String.prototype.trim` (ASCII whitespace). -/
def trimChars (s : String) : String :=
  String.mk ((((s.data.dropWhile isWsChar).reverse).dropWhile isWsChar).reverse)

/-- JS `Array.prototype.indexOf` on string arrays: first index, `-1` if absent. -/
def jsIndexOf (l : List String) (x : String) : Int :=
  match l.findIdx? (fun y => y == x) with
  | some i => (i : Int)
  | none => -1

namespace V6

/-- Task categories of the v6/v8/v5 revisions (`src/unnamed/part_003`). -/
inductive TaskCategory where
  | simple
  | moderate
  | coding
  | complex
  | securityAudit
deriving DecidableEq

def SECURITY_AUDIT_SIGNALS : List String := [
  "security review", "code review", "find bugs in", "find vulnerabilities",
  "security audit", "code audit", "penetration test", "compliance review",
  "security issue", "vulnerability assessment"]

def CODING_SIGNALS : List String := [
  "```", "write code", "write a script", "build a script", "create a script",
  "write a function", "debug", "fix this code", "refactor", "implement",
  "typescript", "javascript", "python", "bash", "sql", "api endpoint",
  "unit test", "pull request", "stack trace", "error:", "exception",
  "function", "class", "module"]

def COMPLEX_SIGNALS : List String := [
  "orchestrat", "coordinate", "multi-agent", "sub-agent", "spawn", "delegate",
  "architect", "system design", "end-to-end", "migrate", "rollout",
  "infrastructure", "build the", "create the system", "design the",
  "multi-step workflow", "complex workflow", "dissertation",
  "comprehensive exam", "systematic theology", "research project", "capstone"]

def MODERATE_SIGNALS : List String := [
  "research", "analyze", "evaluate", "compare", "summarize", "investigate",
  "look into", "find out about", "what do you think", "help me understand",
  "explain in detail", "audit my tasks", "review my list", "clean up",
  "organize", "tidy up", "consolidate", "draft", "write a", "document",
  "proposal", "email", "report", "memo", "outline", "essay", "paper",
  "thesis", "sermon", "exegesis", "hermeneutic", "commentary", "bibliography",
  "citation", "literature review", "study guide", "lecture notes", "greek",
  "hebrew", "theological", "doctrine", "scripture"]

/-- Function `classifyTask` of `src/unnamed/part_003` (lines 143-150): ordered
keyword matching, security-audit first, then complex, coding, moderate,
defaulting to simple. -/
def classifyTask (text : String) : TaskCategory :=
  let t := lowerStr text
  if matchesAny t SECURITY_AUDIT_SIGNALS then .securityAudit
  else if matchesAny t COMPLEX_SIGNALS then .complex
  else if matchesAny t CODING_SIGNALS then .coding
  else if matchesAny t MODERATE_SIGNALS then .moderate
  else .simple

/-- Escalation ledger entry of `src/unnamed/part_003` (`ModelStateEntry`). -/
structure ModelStateEntry where
  beadId : String
  model : String
  category : TaskCategory
  createdAt : String
  sessionKey : String
deriving DecidableEq

/-- Function `addEscalation` of `src/unnamed/part_003` (lines 212-223): remove any
existing entry for this bead, then push the new entry. The ledger is the
`activeEscalations` list of the model-state file. -/
def addEscalation (st : List ModelStateEntry) (entry : ModelStateEntry) : List ModelStateEntry :=
  (st.filter (fun e => e.beadId != entry.beadId)) ++ [entry]

/-- Function `removeEscalation` of `src/unnamed/part_003`: drop the entry for
`beadId` when one exists. -/
def removeEscalation (st : List ModelStateEntry) (beadId : String) : List ModelStateEntry :=
  if (st.find? (fun e => e.beadId == beadId)).isSome then
    st.filter (fun e => e.beadId != beadId)
  else st

/-- Function `getEscalationByBead` of `src/unnamed/part_003`. -/
def getEscalationByBead (st : List ModelStateEntry) (beadId : String) : Option ModelStateEntry :=
  st.find? (fun e => e.beadId == beadId)

/-- A ledger operation: insertion or removal by bead id. -/
inductive LedgerOp where
  | add (entry : ModelStateEntry)
  | remove (beadId : String)

def stepLedger (st : List ModelStateEntry) : LedgerOp → List ModelStateEntry
  | .add entry => addEscalation st entry
  | .remove beadId => removeEscalation st beadId

/-- Run a sequence of ledger operations starting from the empty ledger
(`loadModelState` yields `{ activeEscalations: [] }` initially). -/
def runLedger (ops : List LedgerOp) : List ModelStateEntry :=
  ops.foldl stepLedger []

/-- Number of ledger entries carrying the bead id `b`. -/
def countId (st : List ModelStateEntry) (b : String) : Nat :=
  (st.filter (fun e => e.beadId == b)).length

theorem filter_eq_of_filter_ne (st : List ModelStateEntry) (k : String) :
    (st.filter (fun e => e.beadId != k)).filter (fun e => e.beadId == k) = [] := by
  induction st with
  | nil => rfl
  | cons e rest ih =>
    by_cases h : e.beadId = k <;> simp [List.filter_cons, h, ih]

theorem countId_filter_ne_self (st : List ModelStateEntry) (k : String) :
    countId (st.filter (fun e => e.beadId != k)) k = 0 := by
  simp [countId, filter_eq_of_filter_ne]

theorem countId_filter_ne_le (st : List ModelStateEntry) (k b : String) :
    countId (st.filter (fun e => e.beadId != k)) b ≤ countId st b := by
  unfold countId
  exact List.Sublist.length_le (List.Sublist.filter _ (List.filter_sublist st))

theorem countId_step_le (st : List ModelStateEntry) (op : LedgerOp) (b : String)
    (h : countId st b ≤ 1) : countId (stepLedger st op) b ≤ 1 := by
  cases op with
  | add entry =>
    show countId (addEscalation st entry) b ≤ 1
    unfold addEscalation
    by_cases hb : entry.beadId = b
    · subst hb
      simp [countId, List.filter_append, filter_eq_of_filter_ne]
    · have h1 : countId (st.filter (fun e => e.beadId != entry.beadId)) b ≤ 1 :=
        le_trans (countId_filter_ne_le st entry.beadId b) h
      simpa [countId, List.filter_append, hb] using h1
  | remove beadId =>
    show countId (removeEscalation st beadId) b ≤ 1
    unfold removeEscalation
    split
    · exact le_trans (countId_filter_ne_le st beadId b) h
    · exact h

theorem countId_foldl_le (ops : List LedgerOp) (st : List ModelStateEntry) (b : String)
    (h : countId st b ≤ 1) : countId (ops.foldl stepLedger st) b ≤ 1 := by
  induction ops generalizing st with
  | nil => exact h
  | cons op rest ih => exact ih _ (countId_step_le st op b h)

end V6

namespace Collab

def RATE_LIMIT_SIGNALS : List String := [
  "quota",
  "insufficient_quota",
  "capacity",
  "rate limit",
  "429",
  "exhausted",
  "resource_exhausted",
  "overloaded",
  "limit reached"]

/-- The error values `isRateLimitError` of `src/unnamed/part_001` is applied
to: `enull` covers JS `null` and `undefined`; `estr` a string error; `eobj`
an object whose `status`, `statusCode` and `code` properties are either
absent or numbers, with `stringified` standing for its `JSON.stringify`
serialization (treated as abstract data of the object). -/
inductive ErrVal where
  | enull
  | estr (s : String)
  | eobj (status statusCode code : Option Nat) (stringified : String)
deriving DecidableEq

/-- JS truthiness test `!error` on the modeled error values: `null` and
`undefined` are falsy, as is the empty string; every object is truthy. -/
def jsFalsy : ErrVal → Bool
  | .enull => true
  | .estr s => s == ""
  | .eobj _ _ _ _ => false

/-- The string the source lowercases: the error itself when it is a string,
otherwise its `JSON.stringify` serialization. -/
def jsErrorString : ErrVal → String
  | .enull => ""
  | .estr s => s
  | .eobj _ _ _ stringified => stringified

/-- The check `error.status === 429 || error.statusCode === 429 || error.code === 429`:
only objects carry these properties. -/
def errStatusIs429 : ErrVal → Bool
  | .eobj status statusCode code _ =>
      status == some 429 || statusCode == some 429 || code == some 429
  | _ => false

/-- Function `isRateLimitError` of `src/unnamed/part_001` (lines 203-214). -/
def isRateLimitError (error : ErrVal) : Bool :=
  if jsFalsy error then false
  else
    let errorStr := lowerStr (jsErrorString error)
    if errStatusIs429 error || containsStr errorStr "429" then true
    else RATE_LIMIT_SIGNALS.any (fun signal => containsStr errorStr signal)

/-- The rate-limit fallback of the `after_tool_call` hook of
`src/unnamed/part_001` (lines 613-629), restricted to the model list of the
resolved category and the current model of the session. `some m` means the hook
switches `currentModel` to `m` and emits a fallback directive instructing a
retry; `none` means the hook leaves the state alone and no directive is
emitted (the original error is surfaced unchanged). -/
def afterToolCallFallback (models : List String) (current : String) : Option String :=
  if 1 < models.length then
    let nextIndex : Int := jsIndexOf models current + 1
    if 0 < nextIndex ∧ nextIndex < (models.length : Int) then
      models.get? nextIndex.toNat
    else none
  else none

/-- The default complement table of `src/unnamed/part_001`
(`DEFAULT_CONFIG.modelComplements`). -/
def DEFAULT_MODEL_COMPLEMENTS : List (String × String) := [
  ("opus", "gemini-pro"),
  ("gemini-pro", "opus"),
  ("gpt", "opus"),
  ("opus-4-5", "gemini-pro"),
  ("gemini-3-pro", "opus")]

/-- JS object property read `tbl[k]` followed by a truthiness test, as in
`if (complements[model])`: a hit only when the key is present with a
non-empty value. -/
def jsLookupTruthy (tbl : List (String × String)) (k : String) : Option String :=
  match tbl.find? (fun p => p.1 == k) with
  | some p => if p.2 == "" then none else some p.2
  | none => none

/-- The normalization `model.toLowerCase().replace(/[^a-z0-9]/g, "-")`. -/
def normalizeModel (model : String) : String :=
  String.mk ((lowerStr model).data.map
    (fun c => if ('a' ≤ c ∧ c ≤ 'z') ∨ ('0' ≤ c ∧ c ≤ '9') then c else '-'))

/-- The alias table hard-coded inside `getComplementModel`. -/
def MODEL_ALIASES : List (String × String) := [
  ("opus", "opus"),
  ("opus-4-5", "opus"),
  ("claude-opus-4-5", "opus"),
  ("gemini-pro", "gemini-pro"),
  ("gemini-3-pro", "gemini-pro"),
  ("gpt", "gpt"),
  ("gpt-5-2", "gpt")]

/-- The alias resolution `aliases[normalized] || aliases[model]`. -/
def aliasKeyOf (model : String) : Option String :=
  match jsLookupTruthy MODEL_ALIASES (normalizeModel model) with
  | some v => some v
  | none => jsLookupTruthy MODEL_ALIASES model

/-- The closing heuristic of `getComplementModel`: opus/claude family goes
to "gemini-pro", everything else to "opus". -/
def familyComplement (model : String) : String :=
  if containsStr model "opus" || containsStr model "claude" then "gemini-pro"
  else "opus"

/-- Function `getComplementModel` of `src/unnamed/part_001` (lines 248-278): direct
lookup of the raw then the normalized identifier, then lookup through the
alias table, then the family heuristic. -/
def getComplementModel (model : String) (complements : List (String × String)) : String :=
  let normalized := normalizeModel model
  match jsLookupTruthy complements model with
  | some v => v
  | none =>
    match jsLookupTruthy complements normalized with
    | some v => v
    | none =>
      match aliasKeyOf model with
      | some aliasKey =>
        match jsLookupTruthy complements aliasKey with
        | some v => v
        | none => familyComplement model
      | none => familyComplement model

end Collab

example : Collab.afterToolCallFallback ["opus", "sonnet", "flash"] "opus" = some "sonnet" := by decide
example : Collab.afterToolCallFallback ["opus", "sonnet", "flash"] "flash" = none := by decide
example : Collab.afterToolCallFallback ["opus", "sonnet", "flash"] "mistral" = none := by decide
example : Collab.getComplementModel "mistral-large" Collab.DEFAULT_MODEL_COMPLEMENTS = "opus" := by decide
example : Collab.getComplementModel "Claude-Opus-4-5" Collab.DEFAULT_MODEL_COMPLEMENTS = "gemini-pro" := by decide
example : Collab.isRateLimitError (.estr "Rate limit reached") = true := by decide
example : Collab.isRateLimitError (.estr "boom") = false := by decide

theorem jsLookupTruthy_mem {tbl : List (String × String)} {k v : String}
    (h : Collab.jsLookupTruthy tbl k = some v) : v ∈ tbl.map Prod.snd := by
  unfold Collab.jsLookupTruthy at h
  split at h
  next p hf =>
    split at h
    · exact absurd h (by simp)
    · exact List.mem_map.mpr ⟨p, List.mem_of_find?_eq_some hf, Option.some.inj h⟩
  next => exact absurd h (by simp)

/-- C1: the rate-limit fallback of `src/unnamed/part_001` only ever selects
the entry immediately after `currentModel` in the category model list
(hence a member of that list); when `currentModel` is absent from the list,
or sits at its last position, no model is selected and no fallback directive
is emitted, so the cascade never advances past the last entry and the
original error is surfaced unchanged. -/
theorem fallback_cascade_bounded (models : List String) (current : String) :
    (∀ m, Collab.afterToolCallFallback models current = some m →
       m ∈ models ∧ ∃ i, models.findIdx? (fun y => y == current) = some i ∧
         models.get? (i + 1) = some m)
    ∧ (models.findIdx? (fun y => y == current) = none →
         Collab.afterToolCallFallback models current = none)
    ∧ (∀ i, models.findIdx? (fun y => y == current) = some i →
         models.length = i + 1 → Collab.afterToolCallFallback models current = none) := by
  refine ⟨?_, ?_, ?_⟩
  · intro m hm
    simp only [Collab.afterToolCallFallback, jsIndexOf] at hm
    cases hidx : models.findIdx? (fun y => y == current) with
    | none =>
      rw [hidx] at hm
      have hcond : ¬((0 : Int) < -1 + 1 ∧ (-1 : Int) + 1 < (models.length : Int)) := by omega
      simp [hcond] at hm
    | some i =>
      rw [hidx] at hm
      by_cases hlen : 1 < models.length
      · rw [if_pos hlen] at hm
        by_cases hcond : (0 : Int) < (i : Int) + 1 ∧ (i : Int) + 1 < (models.length : Int)
        · rw [if_pos hcond] at hm
          have htn : ((i : Int) + 1).toNat = i + 1 := by omega
          rw [htn] at hm
          exact ⟨List.get?_mem hm, i, rfl, hm⟩
        · rw [if_neg hcond] at hm; exact absurd hm (by simp)
      · rw [if_neg hlen] at hm; exact absurd hm (by simp)
  · intro hidx
    simp only [Collab.afterToolCallFallback, jsIndexOf]
    rw [hidx]
    have hcond : ¬((0 : Int) < -1 + 1 ∧ (-1 : Int) + 1 < (models.length : Int)) := by omega
    simp [hcond]
  · intro i hidx hlen
    simp only [Collab.afterToolCallFallback, jsIndexOf]
    rw [hidx]
    have hcond : ¬((0 : Int) < (i : Int) + 1 ∧ (i : Int) + 1 < (models.length : Int)) := by
      omega
    rw [if_neg hcond]
    exact ite_self none

/-- Witness for C1 on the list of Scenario E: from "opus" in
["opus", "sonnet", "flash"] the cascade picks exactly "sonnet". -/
theorem fallback_cascade_bounded_witness :
    "sonnet" ∈ ["opus", "sonnet", "flash"] ∧
      ∃ i, ["opus", "sonnet", "flash"].findIdx? (fun y => y == "opus") = some i ∧
        ["opus", "sonnet", "flash"].get? (i + 1) = some "sonnet" :=
  (fallback_cascade_bounded ["opus", "sonnet", "flash"] "opus").1 "sonnet" (by decide)

/-- C7: `getComplementModel` of `src/unnamed/part_001` is total over any
non-empty model identifier and any complement table: its result is either a
value of the table (direct lookup of the raw or normalized identifier, or
lookup through the alias table) or one of the two family representatives
"gemini-pro" / "opus"; and when every lookup misses, it returns exactly the
family heuristic — "gemini-pro" for opus/claude-family identifiers, "opus"
for everything else. -/
theorem complement_total (model : String) (complements : List (String × String))
    (_hne : model ≠ "") :
    (Collab.getComplementModel model complements ∈ complements.map Prod.snd
      ∨ Collab.getComplementModel model complements = "gemini-pro"
      ∨ Collab.getComplementModel model complements = "opus")
    ∧ (Collab.jsLookupTruthy complements model = none →
       Collab.jsLookupTruthy complements (Collab.normalizeModel model) = none →
       (∀ k, Collab.aliasKeyOf model = some k →
          Collab.jsLookupTruthy complements k = none) →
         Collab.getComplementModel model complements = Collab.familyComplement model) := by
  constructor
  · simp only [Collab.getComplementModel]
    split
    next v h1 => exact Or.inl (jsLookupTruthy_mem h1)
    next h1 =>
      split
      next v h2 => exact Or.inl (jsLookupTruthy_mem h2)
      next h2 =>
        split
        next k h3 =>
          split
          next v h4 => exact Or.inl (jsLookupTruthy_mem h4)
          next h4 =>
            right
            unfold Collab.familyComplement
            split <;> simp
        next h3 =>
          right
          unfold Collab.familyComplement
          split <;> simp
  · intro h1 h2 h3
    simp only [Collab.getComplementModel, h1, h2]
    cases hk : Collab.aliasKeyOf model with
    | some k => simp [h3 k hk]
    | none => simp

/-- Witness for C7 at the identifier "mistral-large" (no table hit anywhere,
family heuristic answers "opus"). -/
theorem complement_total_witness :
    Collab.getComplementModel "mistral-large" Collab.DEFAULT_MODEL_COMPLEMENTS =
      Collab.familyComplement "mistral-large" :=
  (complement_total "mistral-large" Collab.DEFAULT_MODEL_COMPLEMENTS (by decide)).2
    (by decide) (by decide)
    (by
      intro k hk
      rw [show Collab.aliasKeyOf "mistral-large" = none from by decide] at hk
      exact Option.noConfusion hk)

/-- C10: `isRateLimitError` of `src/unnamed/part_001` is a total pure
predicate: it returns false on falsy errors (null/undefined), true whenever
the status, statusCode or code property of the error object equals 429, and
otherwise returns true exactly when the lowercased string form of the error
contains "429" or one of the fixed capacity keywords of
`RATE_LIMIT_SIGNALS`. -/
theorem isRateLimitError_total :
    (∀ e, Collab.jsFalsy e = true → Collab.isRateLimitError e = false)
    ∧ (∀ (status statusCode code : Option Nat) (stringified : String),
        status = some 429 ∨ statusCode = some 429 ∨ code = some 429 →
          Collab.isRateLimitError (.eobj status statusCode code stringified) = true)
    ∧ (∀ e, Collab.jsFalsy e = false → Collab.errStatusIs429 e = false →
        (Collab.isRateLimitError e = true ↔
          (containsStr (lowerStr (Collab.jsErrorString e)) "429" = true
            ∨ ∃ signal ∈ Collab.RATE_LIMIT_SIGNALS,
                containsStr (lowerStr (Collab.jsErrorString e)) signal = true))) := by
  refine ⟨?_, ?_, ?_⟩
  · intro e h
    simp [Collab.isRateLimitError, h]
  · intro status statusCode code stringified h
    rcases h with h | h | h <;>
      simp [Collab.isRateLimitError, Collab.jsFalsy, Collab.errStatusIs429, h]
  · intro e hf hs
    simp only [Collab.isRateLimitError, hf, hs, Bool.false_or, if_false, Bool.if_false_left]
    by_cases h429 : containsStr (lowerStr (Collab.jsErrorString e)) "429" = true
    · simp [h429]
    · simp [h429, List.any_eq_true]

/-- Witness for C10 at the string error "quota exceeded". -/
theorem isRateLimitError_total_witness :
    Collab.isRateLimitError (.estr "quota exceeded") = true ↔
      (containsStr (lowerStr (Collab.jsErrorString (.estr "quota exceeded"))) "429" = true
        ∨ ∃ signal ∈ Collab.RATE_LIMIT_SIGNALS,
            containsStr (lowerStr (Collab.jsErrorString (.estr "quota exceeded"))) signal
              = true) :=
  isRateLimitError_total.2.2 (.estr "quota exceeded") (by decide) (by decide)

/-- C2, counterexample: the claim orders coding signals before complex
signals. The text "implement orchestration" contains the coding signal
"implement" and no security-audit signal, yet `classifyTask` of
`src/unnamed/part_003` returns `complex` (its complex check runs before its
coding check), not `coding` as the claim requires. -/
theorem classify_order_counterexample :
    matchesAny (lowerStr "implement orchestration") V6.CODING_SIGNALS = true
    ∧ matchesAny (lowerStr "implement orchestration") V6.SECURITY_AUDIT_SIGNALS = false
    ∧ V6.classifyTask "implement orchestration" = V6.TaskCategory.complex
    ∧ V6.classifyTask "implement orchestration" ≠ V6.TaskCategory.coding := by
  refine ⟨by decide, by decide, by decide, by decide⟩

/-- C2, amended: `classifyTask` of `src/unnamed/part_003` evaluates the
ordered rule list security-audit, then complex, then coding, then moderate
(case-insensitive substring matching); the first category whose signal set
matches wins, and `simple` is returned when none matches. In particular any
text containing a coding signal and neither a security-audit nor a complex
signal classifies as coding. -/
theorem classifyTask_ordered_priority (text : String) :
    (matchesAny (lowerStr text) V6.SECURITY_AUDIT_SIGNALS = true →
       V6.classifyTask text = V6.TaskCategory.securityAudit)
    ∧ (matchesAny (lowerStr text) V6.SECURITY_AUDIT_SIGNALS = false →
       matchesAny (lowerStr text) V6.COMPLEX_SIGNALS = true →
         V6.classifyTask text = V6.TaskCategory.complex)
    ∧ (matchesAny (lowerStr text) V6.SECURITY_AUDIT_SIGNALS = false →
       matchesAny (lowerStr text) V6.COMPLEX_SIGNALS = false →
       matchesAny (lowerStr text) V6.CODING_SIGNALS = true →
         V6.classifyTask text = V6.TaskCategory.coding)
    ∧ (matchesAny (lowerStr text) V6.SECURITY_AUDIT_SIGNALS = false →
       matchesAny (lowerStr text) V6.COMPLEX_SIGNALS = false →
       matchesAny (lowerStr text) V6.CODING_SIGNALS = false →
       matchesAny (lowerStr text) V6.MODERATE_SIGNALS = true →
         V6.classifyTask text = V6.TaskCategory.moderate)
    ∧ (matchesAny (lowerStr text) V6.SECURITY_AUDIT_SIGNALS = false →
       matchesAny (lowerStr text) V6.COMPLEX_SIGNALS = false →
       matchesAny (lowerStr text) V6.CODING_SIGNALS = false →
       matchesAny (lowerStr text) V6.MODERATE_SIGNALS = false →
         V6.classifyTask text = V6.TaskCategory.simple) := by
  refine ⟨?_, ?_, ?_, ?_, ?_⟩ <;> intros <;> simp_all [V6.classifyTask]

/-- Witness for the amended theorem of C2 at the concrete text "debug". -/
theorem classifyTask_ordered_priority_witness :
    V6.classifyTask "debug" = V6.TaskCategory.coding :=
  (classifyTask_ordered_priority "debug").2.2.1 (by decide) (by decide) (by decide)

namespace V3

/-- Task categories of the v3 revision at the top of `src/index.ts`. -/
inductive TaskCategory where
  | simple
  | planning
  | complex
  | coding
deriving DecidableEq

def CODING_SIGNALS : List String := [
  "```", "write code", "write a script", "build a script", "create a script",
  "write a function", "debug", "fix this code", "refactor", "implement",
  "typescript", "javascript", "python", "bash", "sql", "api endpoint",
  "unit test", "pull request", "stack trace", "error:", "exception"]

def COMPLEX_SIGNALS : List String := [
  "orchestrat", "coordinate", "multi-agent", "sub-agent", "spawn", "delegate",
  "architect", "system design", "end-to-end", "migrate", "rollout",
  "security review", "audit"]

def PLANNING_SIGNALS : List String := [
  "design", "plan", "strategy", "roadmap", "research", "analyze", "evaluate",
  "compare", "recommend", "proposal", "rfc", "spec", "requirements"]

/-- Function `classifyTask` of the v3 revision (`src/index.ts` lines 153-167):
coding signals first, then complex, then planning, defaulting to simple. -/
def classifyTask (text : String) : TaskCategory :=
  let t := lowerStr text
  if matchesAny t CODING_SIGNALS then .coding
  else if matchesAny t COMPLEX_SIGNALS then .complex
  else if matchesAny t PLANNING_SIGNALS then .planning
  else .simple

def DEFAULT_APPROVAL_TRIGGERS : List String := [
  "go ahead", "proceed", "do it", "green light", "approved", "yes", "yeah",
  "yep", "looks good", "lgtm", "ship it", "build it", "execute", "start",
  "begin"]

def DEFAULT_OVERRIDE_TRIGGERS : List String := [
  "stick with", "stay on", "keep", "no switch", "don\x27t switch"]

/-- Function `isApproval` of the v3 revision. -/
def isApproval (text : String) (triggers : List String) : Bool :=
  let t := trimChars (lowerStr text)
  triggers.any (fun trigger => containsStr t trigger)

/-- Function `isOverride` of the v3 revision. -/
def isOverride (text : String) (triggers : List String) : Bool :=
  let t := trimChars (lowerStr text)
  triggers.any (fun trigger => containsStr t trigger)

/-- Function `getPrimaryModel` of the v3 revision: `categoryModels[0]`; `none`
stands for JS `undefined` when the configured list is empty. The `modelsOf`
table is the category-to-list configuration after the `??`-resolution
against the defaults. -/
def getPrimaryModel (category : TaskCategory) (modelsOf : TaskCategory → List String) :
    Option String :=
  (modelsOf category).head?

/-- The table `DEFAULT_CONFIG.models` of the v3 revision. -/
def DEFAULT_MODELS : TaskCategory → List String
  | .simple => ["gemini-flash", "sonnet"]
  | .planning => ["gemini-pro", "opus"]
  | .complex => ["opus", "sonnet"]
  | .coding => ["opus", "gemini-pro"]

/-- The `SessionState` of the v3 revision; `currentModel = none` means the
session is on the configured default model, and `none` in the suggestion
fields stands for JS `undefined`. -/
structure SessionState where
  currentModel : Option String
  suggestedModel : Option String
  suggestedCategory : Option TaskCategory
  pendingApproval : Bool
  activeTodoistTaskId : Option String
deriving DecidableEq

/-- The state `getState` creates on first use of a session key. -/
def initialState : SessionState :=
  { currentModel := none, suggestedModel := none, suggestedCategory := none,
    pendingApproval := false, activeTodoistTaskId := none }

/-- What a v3 turn hands back to the host: nothing (`noop`), a suggestion
injection, or a switch injection built from the approved model. -/
inductive Directive where
  | noop
  | suggest (model : Option String)
  | switchTo (model : Option String)
deriving DecidableEq

/-- JS strict equality `state.currentModel === suggestedModel` between a
string-or-null and a string-or-undefined: true only when both are strings
and equal (`null === undefined` is false). -/
def jsStrictEq : Option String → Option String → Bool
  | some a, some b => a == b
  | _, _ => false

/-- JS truthiness of `state.suggestedModel` (undefined and the empty string
are falsy). -/
def optTruthy : Option String → Bool
  | some s => s != ""
  | none => false

/-- The `before_agent_start` hook of the v3 revision (`src/index.ts` lines
282-347) as a step on the session state, taking the extracted user text:
override check first, then approval check, then classification and
suggestion. -/
def turnStep (approvals overrides : List String) (modelsOf : TaskCategory → List String)
    (s : SessionState) (text : String) : SessionState × Directive :=
  if s.pendingApproval && isOverride text overrides then
    ({ s with pendingApproval := false, suggestedModel := none, suggestedCategory := none },
      .noop)
  else if s.pendingApproval && optTruthy s.suggestedModel && isApproval text approvals then
    ({ s with
        currentModel := s.suggestedModel
        pendingApproval := false
        suggestedModel := none
        suggestedCategory := none },
      .switchTo s.suggestedModel)
  else
    let category := classifyTask text
    if category = .simple then (s, .noop)
    else
      let suggested := getPrimaryModel category modelsOf
      if jsStrictEq s.currentModel suggested || s.pendingApproval then (s, .noop)
      else
        ({ s with
            suggestedModel := suggested
            suggestedCategory := some category
            pendingApproval := true },
          .suggest suggested)

/-- The `after_tool_call` hook of the v3 revision (`src/index.ts` lines
354-372): a `complete-tasks` call returns the session to the default
model. -/
def afterToolCallStep (toolName : String) (s : SessionState) : SessionState :=
  if toolName != "complete-tasks" then s
  else if s.currentModel != none then { s with currentModel := none }
  else s

/-- A router operation on the v3 session state. The fallback operation is
the rate-limit cascade of the collaboration revision
(`src/unnamed/part_001`), which only moves `currentModel` one step along
the given category model list. -/
inductive Op where
  | turn (text : String)
  | toolCall (toolName : String)
  | rateLimitFallback (models : List String)

def step (approvals overrides : List String) (modelsOf : TaskCategory → List String)
    (s : SessionState) : Op → SessionState
  | .turn text => (turnStep approvals overrides modelsOf s text).1
  | .toolCall toolName => afterToolCallStep toolName s
  | .rateLimitFallback models =>
    match s.currentModel with
    | some current =>
      match Collab.afterToolCallFallback models current with
      | some m => { s with currentModel := some m }
      | none => s
    | none => s

/-- Run a sequence of operations from session creation. -/
def run (approvals overrides : List String) (modelsOf : TaskCategory → List String)
    (ops : List Op) : SessionState :=
  ops.foldl (step approvals overrides modelsOf) initialState

/-- The category table produced by merging the user configuration
`{ models: { coding: [] } }` over the v3 defaults: the spread replaces the
whole `models` object, and `models[category] ?? DEFAULT_CONFIG.models[...]`
falls back only for the absent categories, not for the present empty
list. -/
def modelsCodingEmpty : TaskCategory → List String
  | .coding => []
  | c => DEFAULT_MODELS c

end V3

namespace V4A

/-- Task categories of the auto-switch revision (`src/unnamed/part_002`). -/
inductive TaskCategory where
  | simple
  | moderate
  | coding
  | complex
  | audit
deriving DecidableEq

def AUDIT_SIGNALS : List String := [
  "audit", "security review", "code review", "find bugs", "vulnerability",
  "penetration", "compliance", "thorough review"]

def CODING_SIGNALS : List String := [
  "```", "write code", "write a script", "build a script", "create a script",
  "write a function", "debug", "fix this code", "refactor", "implement",
  "typescript", "javascript", "python", "bash", "sql", "api endpoint",
  "unit test", "pull request", "stack trace", "error:", "exception",
  "function", "class", "module"]

def COMPLEX_SIGNALS : List String := [
  "orchestrat", "coordinate", "multi-agent", "sub-agent", "spawn", "delegate",
  "architect", "system design", "end-to-end", "migrate", "rollout",
  "infrastructure", "build the", "create the system", "design the",
  "multi-step workflow", "complex workflow"]

def MODERATE_SIGNALS : List String := [
  "research", "analyze", "evaluate", "compare", "summarize", "investigate",
  "look into", "find out about", "what do you think", "help me understand",
  "explain in detail", "draft", "write a", "document", "proposal", "email",
  "report", "memo", "outline"]

/-- Function `classifyTask` of `src/unnamed/part_002` (lines 159-176). -/
def classifyTask (text : String) : TaskCategory :=
  let t := lowerStr text
  if matchesAny t AUDIT_SIGNALS then .audit
  else if matchesAny t COMPLEX_SIGNALS then .complex
  else if matchesAny t CODING_SIGNALS then .coding
  else if matchesAny t MODERATE_SIGNALS then .moderate
  else .simple

/-- The table `DEFAULT_CONFIG.models` of `src/unnamed/part_002`. -/
def DEFAULT_MODELS : TaskCategory → List String
  | .simple => []
  | .moderate => ["sonnet", "gemini-flash"]
  | .coding => ["opus", "sonnet", "gemini-flash"]
  | .complex => ["opus", "gemini-pro"]
  | .audit => ["openai-codex/gpt-5.2", "opus"]

/-- The `SessionState` of `src/unnamed/part_002`. -/
structure SessionState where
  currentModel : Option String
  needsReturnAnnouncement : Bool
deriving DecidableEq

def initialState : SessionState :=
  { currentModel := none, needsReturnAnnouncement := false }

inductive Directive where
  | noop
  | returnToDefault
  | autoSwitchTo (model : String)
deriving DecidableEq

/-- The `before_agent_start` hook of `src/unnamed/part_002` (lines
277-333): the armed return-to-default check runs first, before the text is
even extracted, and classification auto-switches `currentModel` without any
approval handshake. -/
def turnStep (modelsOf : TaskCategory → List String) (s : SessionState) (text : String) :
    SessionState × Directive :=
  if s.needsReturnAnnouncement then
    ({ s with needsReturnAnnouncement := false }, .returnToDefault)
  else
    let category := classifyTask text
    if category = .simple then (s, .noop)
    else
      match (modelsOf category).head? with
      | none => (s, .noop)
      | some primaryModel =>
        if primaryModel == "" then (s, .noop)
        else if s.currentModel == some primaryModel then (s, .noop)
        else ({ s with currentModel := some primaryModel }, .autoSwitchTo primaryModel)

/-- The `after_tool_call` hook of `src/unnamed/part_002` (lines 338-355):
on a `complete-tasks` call while on an upgraded model it only clears
`currentModel` and arms `needsReturnAnnouncement`; the hook never returns
an injection, so no directive is emitted during completion processing. -/
def afterToolCallStep (toolName : String) (s : SessionState) : SessionState × Directive :=
  if toolName != "complete-tasks" then (s, .noop)
  else if s.currentModel != none then
    ({ currentModel := none, needsReturnAnnouncement := true }, .noop)
  else (s, .noop)

end V4A

/-- C8: over any sequence of ledger insertions and removals starting from
the empty ledger, at most one escalation entry exists per bead id, and
inserting an entry whose bead id already exists overwrites it: after
`addEscalation`, the entries with that id are exactly the new entry. -/
theorem ledger_at_most_one_per_bead :
    (∀ (ops : List V6.LedgerOp) (b : String), V6.countId (V6.runLedger ops) b ≤ 1)
    ∧ (∀ (st : List V6.ModelStateEntry) (entry : V6.ModelStateEntry),
        (V6.addEscalation st entry).filter (fun e => e.beadId == entry.beadId) = [entry]) := by
  constructor
  · intro ops b
    exact V6.countId_foldl_le ops [] b (by simp [V6.countId])
  · intro st entry
    simp [V6.addEscalation, List.filter_append, V6.filter_eq_of_filter_ne]

/-- C3: under a configuration whose coding model list is empty — a table
the ModelCatalog of the spec explicitly allows — a single turn of the v3 hook on
the text "debug" from a fresh session produces `pendingApproval = true`
with `suggestedModel` undefined: the v3 suggestion path assigns
`categoryModels[0]` without the empty-list guard (`if (!primaryModel)
return`) that the later revisions add, breaking the claimed iff. -/
theorem pending_without_suggested_model :
    ((V3.turnStep V3.DEFAULT_APPROVAL_TRIGGERS V3.DEFAULT_OVERRIDE_TRIGGERS
        V3.modelsCodingEmpty V3.initialState "debug").1.pendingApproval = true)
    ∧ ((V3.turnStep V3.DEFAULT_APPROVAL_TRIGGERS V3.DEFAULT_OVERRIDE_TRIGGERS
        V3.modelsCodingEmpty V3.initialState "debug").1.suggestedModel = none) := by
  refine ⟨by decide, by decide⟩

/-- C9: the v3 keyword classifier (`src/index.ts` lines 153-167) is a pure
function of the input text and the fixed signal tables, so two runs on
equal input yield the same category. -/
theorem classifyTask_deterministic (t1 t2 : String) (h : t1 = t2) :
    V3.classifyTask t1 = V3.classifyTask t2 := by
  rw [h]

/-- Witness for C9 on two runs over the text "debug". -/
theorem classifyTask_deterministic_witness :
    V3.classifyTask "debug" = V3.classifyTask "debug" :=
  classifyTask_deterministic "debug" "debug" rfl

/-- C5: when an approval is pending, the v3 hook evaluates the override
check before the approval check, so a text matching both phrase lists
clears the pending suggestion, emits no injection (a no-op directive) and
leaves `currentModel` unchanged — the switch does not happen. -/
theorem override_checked_before_approval (approvals overrides : List String)
    (modelsOf : V3.TaskCategory → List String) (s : V3.SessionState) (text : String)
    (hp : s.pendingApproval = true)
    (ho : V3.isOverride text overrides = true)
    (_ha : V3.isApproval text approvals = true) :
    V3.turnStep approvals overrides modelsOf s text =
      ({ s with pendingApproval := false, suggestedModel := none, suggestedCategory := none },
        V3.Directive.noop)
    ∧ (V3.turnStep approvals overrides modelsOf s text).1.currentModel = s.currentModel := by
  constructor
  · simp [V3.turnStep, hp, ho]
  · simp [V3.turnStep, hp, ho]

/-- Witness for C5: pending suggestion for "opus", text matching both the
override list ("no switch") and the approval list ("go ahead"). -/
theorem override_checked_before_approval_witness :
    V3.turnStep V3.DEFAULT_APPROVAL_TRIGGERS V3.DEFAULT_OVERRIDE_TRIGGERS V3.DEFAULT_MODELS
        { currentModel := none, suggestedModel := some "opus",
          suggestedCategory := some V3.TaskCategory.coding, pendingApproval := true,
          activeTodoistTaskId := none }
        "no switch, but go ahead" =
      ({ currentModel := none, suggestedModel := none, suggestedCategory := none,
          pendingApproval := false, activeTodoistTaskId := none },
        V3.Directive.noop) :=
  (override_checked_before_approval V3.DEFAULT_APPROVAL_TRIGGERS V3.DEFAULT_OVERRIDE_TRIGGERS
    V3.DEFAULT_MODELS _ "no switch, but go ahead" rfl (by decide) (by decide)).1

/-- C4: in the revision of `src/unnamed/part_002`, the completion handler
never emits a directive (it only clears `currentModel` and arms the
`needsReturnAnnouncement` flag), and whenever the flag is armed the next
turn emits the return-to-default directive and clears the flag — for every
turn text, i.e. before and independently of any classification of the new
text of the new turn. -/
theorem revert_deferred_to_next_turn (modelsOf : V4A.TaskCategory → List String) :
    (∀ (toolName : String) (s : V4A.SessionState),
        (V4A.afterToolCallStep toolName s).2 = V4A.Directive.noop)
    ∧ (∀ s : V4A.SessionState, s.currentModel.isSome →
        (V4A.afterToolCallStep "complete-tasks" s).1.needsReturnAnnouncement = true)
    ∧ (∀ (s : V4A.SessionState) (text : String), s.needsReturnAnnouncement = true →
        (V4A.turnStep modelsOf s text).2 = V4A.Directive.returnToDefault
        ∧ (V4A.turnStep modelsOf s text).1.needsReturnAnnouncement = false) := by
  refine ⟨?_, ?_, ?_⟩
  · intro toolName s
    unfold V4A.afterToolCallStep
    split
    · rfl
    · split <;> rfl
  · intro s hs
    cases hc : s.currentModel with
    | none => rw [hc] at hs; exact absurd hs (by simp)
    | some m => simp [V4A.afterToolCallStep, hc]
  · intro s text hr
    refine ⟨?_, ?_⟩ <;> simp [V4A.turnStep, hr]

/-- Witness for C4: an armed session emits the return-to-default directive
on the following turn. -/
theorem revert_deferred_to_next_turn_witness :
    (V4A.turnStep V4A.DEFAULT_MODELS
        { currentModel := none, needsReturnAnnouncement := true } "hello").2
      = V4A.Directive.returnToDefault
    ∧ (V4A.turnStep V4A.DEFAULT_MODELS
        { currentModel := none, needsReturnAnnouncement := true } "hello").1.needsReturnAnnouncement
      = false :=
  (revert_deferred_to_next_turn V4A.DEFAULT_MODELS).2.2
    { currentModel := none, needsReturnAnnouncement := true } "hello" rfl

/-- C6, counterexample: the auto-switch revision (`src/unnamed/part_002`,
lines 304-330) changes `currentModel` as a direct side effect of
classifying the text of the turn: from a fresh session — its state carries no
pending suggestion and the revision has no approval handshake,
collaboration check, fallback cascade or revert in this path — the turn
"debug the function" sets `currentModel` to "opus" and emits an auto-switch
directive. -/
theorem classification_changes_currentModel :
    V4A.initialState.currentModel = none
    ∧ V4A.initialState.needsReturnAnnouncement = false
    ∧ (V4A.turnStep V4A.DEFAULT_MODELS V4A.initialState "debug the function").1.currentModel
        = some "opus"
    ∧ (V4A.turnStep V4A.DEFAULT_MODELS V4A.initialState "debug the function").2
        = V4A.Directive.autoSwitchTo "opus" := by
  refine ⟨rfl, rfl, by decide, by decide⟩

/-- C6 (amended): in the v3 approval-flow revision, `currentModel` changes
only through approval of a pending suggestion, the rate-limit fallback
cascade, or the completion-triggered return to default; a turn that does
not fire the approval branch — in particular one that merely classifies the
text and issues a suggestion — leaves `currentModel` unchanged. (The
auto-switch revision of `src/unnamed/part_002` additionally changes
`currentModel` directly upon classification, with no approval.) -/
theorem currentModel_change_causes (approvals overrides : List String)
    (modelsOf : V3.TaskCategory → List String) (s : V3.SessionState) (op : V3.Op)
    (hch : (V3.step approvals overrides modelsOf s op).currentModel ≠ s.currentModel) :
    (∃ text, op = V3.Op.turn text
      ∧ s.pendingApproval = true
      ∧ V3.optTruthy s.suggestedModel = true
      ∧ V3.isApproval text approvals = true
      ∧ V3.isOverride text overrides = false
      ∧ (V3.step approvals overrides modelsOf s op).currentModel = s.suggestedModel)
    ∨ (∃ toolName, op = V3.Op.toolCall toolName
      ∧ (V3.step approvals overrides modelsOf s op).currentModel = none)
    ∨ (∃ models current next, op = V3.Op.rateLimitFallback models
      ∧ s.currentModel = some current
      ∧ Collab.afterToolCallFallback models current = some next
      ∧ (V3.step approvals overrides modelsOf s op).currentModel = some next) := by
  cases op with
  | turn text =>
    by_cases h1 : (s.pendingApproval && V3.isOverride text overrides) = true
    · exfalso
      apply hch
      simp [V3.step, V3.turnStep, h1]
    · by_cases h2 :
        (s.pendingApproval && V3.optTruthy s.suggestedModel
          && V3.isApproval text approvals) = true
      · left
        have hcur : (V3.step approvals overrides modelsOf s (V3.Op.turn text)).currentModel
            = s.suggestedModel := by
          simp [V3.step, V3.turnStep, h1, h2]
        simp only [Bool.and_eq_true] at h2
        obtain ⟨⟨hp, ht⟩, ha⟩ := h2
        have hov : V3.isOverride text overrides = false := by
          cases hv : V3.isOverride text overrides with
          | false => rfl
          | true => exact absurd (by simp [hp, hv]) h1
        exact ⟨text, rfl, hp, ht, ha, hov, hcur⟩
      · exfalso
        apply hch
        simp only [V3.step, V3.turnStep, if_neg h1, if_neg h2]
        split
        · rfl
        · split
          · rfl
          · rfl
  | toolCall toolName =>
    right; left
    refine ⟨toolName, rfl, ?_⟩
    simp only [V3.step, V3.afterToolCallStep] at hch ⊢
    by_cases h1 : (toolName != "complete-tasks") = true
    · exact absurd (by rw [if_pos h1]) hch
    · rw [if_neg h1] at hch ⊢
      by_cases h2 : (s.currentModel != none) = true
      · rw [if_pos h2]
      · exact absurd (by rw [if_neg h2]) hch
  | rateLimitFallback models =>
    right; right
    simp only [V3.step] at hch ⊢
    cases hc : s.currentModel with
    | none => simp [hc] at hch
    | some current =>
      cases hf : Collab.afterToolCallFallback models current with
      | none => simp [hc, hf] at hch
      | some m =>
        refine ⟨models, current, m, rfl, rfl, hf, ?_⟩
        simp [hf]

/-- Witness for the amended theorem of C6: approving a pending "opus" suggestion
with the text "go ahead" is a `currentModel` change, and the theorem
attributes it to the approval cause (approval matched, override not). -/
theorem currentModel_change_causes_witness :
    ∃ text, V3.Op.turn "go ahead" = V3.Op.turn text
      ∧ V3.isApproval text V3.DEFAULT_APPROVAL_TRIGGERS = true
      ∧ V3.isOverride text V3.DEFAULT_OVERRIDE_TRIGGERS = false
      ∧ (V3.step V3.DEFAULT_APPROVAL_TRIGGERS V3.DEFAULT_OVERRIDE_TRIGGERS V3.DEFAULT_MODELS
          { currentModel := none, suggestedModel := some "opus",
            suggestedCategory := some V3.TaskCategory.coding, pendingApproval := true,
            activeTodoistTaskId := none } (V3.Op.turn text)).currentModel = some "opus" := by
  have h := currentModel_change_causes V3.DEFAULT_APPROVAL_TRIGGERS V3.DEFAULT_OVERRIDE_TRIGGERS
    V3.DEFAULT_MODELS
    { currentModel := none, suggestedModel := some "opus",
      suggestedCategory := some V3.TaskCategory.coding, pendingApproval := true,
      activeTodoistTaskId := none }
    (V3.Op.turn "go ahead") (by decide)
  rcases h with ⟨text, hop, _, _, ha, ho, hcur⟩ | ⟨tool, hop, _⟩ | ⟨ms, cur, nxt, hop, _⟩
  · exact ⟨text, hop, ha, ho, by rw [← hop]; exact hcur⟩
  · exact V3.Op.noConfusion hop
  · exact V3.Op.noConfusion hop
